import Mathlib

/-!
Shallow embedding of the Upscayl gateway service
(`app/services/upscayle_services.py`, `app/services/upscayle_route.py`).

JSON payloads exchanged with the remote API are modelled by the inductive
type `Json`; Python dicts become association lists in insertion order
(keys unique in every payload the remote produces; lookup takes the first
match, which coincides with Python dict semantics on unique keys).
`requests` calls are modelled by passing the observable result of each
remote interaction (`RemoteAttempt`) as data; raised `HTTPException`s
become `Except`/explicit error values.
-/

namespace Upscayl

/-- JSON values, as produced by `response.json()`. Numbers are modelled as
integers (no claim touches fractional payload numbers). -/
inductive Json where
  | null
  | bool (b : Bool)
  | num (n : Int)
  | str (s : String)
  | arr (items : List Json)
  | obj (kvs : List (String × Json))

/-- First-match lookup in a Python dict modelled as an association list:
`d[k]` / `d.get(k)` for dicts (unique keys ⇒ first match is the match). -/
def dictGet (kvs : List (String × Json)) (k : String) : Option Json :=
  (kvs.find? (fun kv => kv.1 = k)).map (·.2)

/-- Python dict assignment `d[k] = v`: replaces the value of the first
occurrence of `k` in place, otherwise appends the new key (Python dicts
keep insertion order). -/
def dictSet (kvs : List (String × Json)) (k : String) (v : Json) :
    List (String × Json) :=
  match kvs with
  | [] => [(k, v)]
  | (k', v') :: rest =>
      if k' = k then (k', v) :: rest else (k', v') :: dictSet rest k v

/-- `str(x)` / f-string interpolation of a JSON value. Scalars follow
Python exactly (`None`/`True`/`False`, numerals, the string itself);
containers are rendered by an opaque placeholder (no payload in any claim
interpolates a container into a string). -/
def pyStr : Json → String
  | .null => "None"
  | .bool true => "True"
  | .bool false => "False"
  | .num n => toString n
  | .str s => s
  | .arr _ => "<list>"
  | .obj _ => "<dict>"

/-- `needle in haystack` for Python strings: substring test. -/
def strContains (haystack needle : String) : Bool :=
  decide (needle.data <:+: haystack.data)

/-- Python `key in value` where `value` is an arbitrary JSON value:
dicts test key membership, lists test element membership, strings test
substrings, and every other value raises `TypeError` (modelled `.error ()`). -/
def pyContains (j : Json) (k : String) : Except Unit Bool :=
  match j with
  | .obj kvs => .ok ((dictGet kvs k).isSome)
  | .arr items =>
      .ok (items.any (fun it => match it with | .str s => s = k | _ => false))
  | .str s => .ok (strContains s k)
  | _ => .error ()

/-- An `HTTPException(status_code, detail)` raised by the service. -/
structure HTTPError where
  status_code : Nat
  detail : String

/-- The base CDN URL hard-coded in `get_task_status` (line 119). -/
def base_url : String := "https://upscayl.org"

/-- One file entry of `data["files"]`, as consumed by the loop body of
`get_task_status` (lines 120–128): a non-dict entry contributes nothing;
a dict contributes its `url` value if the key is present, otherwise
`f"{base_url}/{path}"` if `path` is present, otherwise nothing. -/
def urlOfFileInfo (file_info : Json) : Option Json :=
  match file_info with
  | .obj kvs =>
      match dictGet kvs "url" with
      | some u => some u
      | none =>
          match dictGet kvs "path" with
          | some p => some (.str (base_url ++ "/" ++ pyStr p))
          | none => none
  | _ => none

/-- The `image_urls` list built by `get_task_status` (lines 114–128) from a
`data` dict: entries of `data["files"]` are walked in order when that key
holds a list, anything else yields `[]`. -/
def extractImageUrls (data : List (String × Json)) : List Json :=
  match dictGet data "files" with
  | some (.arr items) => items.filterMap urlOfFileInfo
  | _ => []

/-- Post-processing of `response.json()` in `get_task_status`
(lines 109–133 with the handler at lines 140–144): a dict with a `data`
key whose value is a dict gets `image_urls` and `task_status` set and is
returned; a value without a `data` key (per Python `in` semantics) is
returned verbatim; anywhere Python raises (`in` on a non-container,
`.get` on a non-dict `data`) the generic handler converts the exception
into `HTTPException(500, "Error processing task status: ...")`. -/
def processStatusResponse (result : Json) : Except HTTPError Json :=
  match pyContains result "data" with
  | .error _ => .error ⟨500, "Error processing task status"⟩
  | .ok false => .ok result
  | .ok true =>
      match result with
      | .obj kvs =>
          match dictGet kvs "data" with
          | some (.obj data) =>
              let image_urls := extractImageUrls data
              let task_status := (dictGet data "status").getD (.str "")
              .ok (.obj (dictSet (dictSet kvs "image_urls" (.arr image_urls))
                    "task_status" task_status))
          | _ => .error ⟨500, "Error processing task status"⟩
      | _ => .error ⟨500, "Error processing task status"⟩

/-- The observable result of one remote `POST /get-task-status` interaction:
either `requests` raised (network failure or `raise_for_status`), or a
response body was obtained and parsed by `response.json()`
(an unparseable body is folded into `unparsable`). -/
inductive RemoteAttempt where
  | failure (msg : String)
  | unparsable (msg : String)
  | reply (body : Json)

/-- `get_task_status` (lines 88–144) as a function of the remote
interaction's observable outcome: a `requests` exception becomes
`HTTPException(500, "Error fetching task status: ...")` (lines 135–139), a
body that fails to parse hits the generic handler (lines 140–144), and a
parsed body is post-processed by `processStatusResponse`. -/
def get_task_status (a : RemoteAttempt) : Except HTTPError Json :=
  match a with
  | .failure msg => .error ⟨500, "Error fetching task status: " ++ msg⟩
  | .unparsable msg => .error ⟨500, "Error processing task status: " ++ msg⟩
  | .reply body => processStatusResponse body

/-- Python's `str.upper()` restricted to its ASCII action, as a
structurally recursive map (provably equal to `String.toUpper`,
see `pyUpper_eq_toUpper`). -/
def pyUpper (s : String) : String := ⟨s.data.map Char.toUpper⟩

/-- Status lists of the poll loop (`upscale_images_sync` lines 198, 203). -/
def completedStatuses : List String :=
  ["PROCESSED", "COMPLETED", "COMPLETE", "SUCCESS", "DONE"]

def failedStatuses : List String := ["FAILED", "ERROR"]

/-- Normalized outcome of one status payload, as the poll loop sees it:
return the response (`completed`), raise
`HTTPException(500, "Image upscaling failed: ...")` (`failed reason`), or
keep polling (`inProgress status`). -/
inductive TaskOutcome where
  | inProgress (status : String)
  | completed (resp : Json)
  | failed (reason : String)

/-- Literal translation of the classification in `upscale_images_sync`
(lines 193–218), the body of the `try`: `.error ()` marks a Python
exception escaping to the generic handler at line 222 (subscripting a
non-dict, `.get` on a non-dict, `.upper()` on a non-string). -/
def classifyCore (status_response : Json) : Except Unit TaskOutcome :=
  match pyContains status_response "data" with
  | .error _ => .error ()
  | .ok false => .ok (.inProgress "")
  | .ok true =>
      match status_response with
      | .obj kvs =>
          match dictGet kvs "data" with
          | some (.obj data) =>
              match (dictGet data "status").getD (.str "") with
              | .str s =>
                  let task_status := pyUpper s
                  if task_status ∈ completedStatuses then
                    .ok (.completed status_response)
                  else if task_status ∈ failedStatuses then
                    .ok (.failed
                      (pyStr ((dictGet data "error").getD (.str "Unknown error"))))
                  else .ok (.inProgress task_status)
              | _ => .error ()
          | _ => .error ()
      | _ => .error ()

/-- The classification as the loop applies it: line 222 absorbs every
non-`HTTPException` exception (the iteration logs and keeps polling), so
an escaping Python exception behaves as in-progress with empty status. -/
def classifyStatus (status_response : Json) : TaskOutcome :=
  match classifyCore status_response with
  | .ok o => o
  | .error _ => .inProgress ""

/-- Python `int()` on a rational elapsed time: truncation toward zero. -/
def pyInt (q : ℚ) : Int := if 0 ≤ q then ⌊q⌋ else ⌈q⌉

/-- The fixed backoff schedule (`poll_intervals`, line 178), in seconds. -/
def poll_intervals : List ℚ := [1/2, 1/2, 1, 1, 2, 2, 3, 5, 10]

/-- The wait performed at iteration `poll_index` (line 235):
`poll_intervals[min(poll_index, len(poll_intervals) - 1)]`. -/
def intervalAt (poll_index : Nat) : ℚ :=
  poll_intervals.getD (min poll_index (poll_intervals.length - 1)) 0

/-- The timeout detail string raised at line 231. -/
def timeoutDetail (task_id : Json) (elapsed : ℚ) : String :=
  "Task processing timeout after " ++ toString (pyInt elapsed) ++
    " seconds. Task ID: " ++ pyStr task_id ++ ". Check status at /upscale/task/" ++
    pyStr task_id

/-- One poll iteration's environment: the observable outcome of its
`get_task_status` call and the value of `time.time() - start_time` at the
timeout check of line 226 (an injected clock). -/
structure IterInput where
  attempt : RemoteAttempt
  elapsed : ℚ

/-- How a run of `upscale_images_sync` ends: a returned response, a
raised `HTTPException`, or an uncaught Python exception (`pyError`,
turned into a generic 500 by the framework). -/
inductive SyncOutcome where
  | ok (resp : Json)
  | httpError (e : HTTPError)
  | pyError

/-- Observable trace of the polling phase: the final outcome (`none` when
the supplied iteration environments ran out with the loop still polling),
the number of `get_task_status` calls performed, and the sleep intervals
performed, in order. -/
structure RunTrace where
  outcome : Option SyncOutcome
  checks : Nat
  sleeps : List ℚ

/-- The `while True:` polling loop of `upscale_images_sync`
(lines 183–239), driven by a finite list of iteration environments.
Per iteration: call `get_task_status` (a raised `HTTPException` is
re-raised by line 220–221, aborting the loop); classify the response
(completed returns it, FAILED/ERROR raises
`HTTPException(500, "Image upscaling failed: ...")`, anything else —
including an absorbed Python exception — keeps polling); check the
deadline (line 227, strict `>`); sleep `intervalAt poll_index` and advance
`poll_index`. -/
def pollLoop (task_id : Json) (max_wait_time : ℚ) (poll_index : Nat) :
    List IterInput → RunTrace
  | [] => ⟨none, 0, []⟩
  | it :: rest =>
      match get_task_status it.attempt with
      | .error e => ⟨some (.httpError e), 1, []⟩
      | .ok resp =>
          match classifyStatus resp with
          | .completed r => ⟨some (.ok r), 1, []⟩
          | .failed reason =>
              ⟨some (.httpError ⟨500, "Image upscaling failed: " ++ reason⟩), 1, []⟩
          | .inProgress _ =>
              if it.elapsed > max_wait_time then
                ⟨some (.httpError ⟨408, timeoutDetail task_id it.elapsed⟩), 1, []⟩
              else
                let t := pollLoop task_id max_wait_time (poll_index + 1) rest
                ⟨t.outcome, t.checks + 1, intervalAt poll_index :: t.sleeps⟩

/-- Extraction of the task id at the head of `upscale_images_sync`
(lines 167–173): `"data" not in task_response or "taskId" not in
task_response["data"]` raises `HTTPException(500, "Failed to create
upscaling task")` (the `or` short-circuits, and each `in` / subscript
follows Python semantics); a `TypeError` from `in` or subscripting on a
malformed body propagates uncaught (`.error none`); otherwise the task id
is `task_response["data"]["taskId"]`. -/
def startTaskId (task_response : Json) : Except (Option HTTPError) Json :=
  match pyContains task_response "data" with
  | .error _ => .error none
  | .ok false => .error (some ⟨500, "Failed to create upscaling task"⟩)
  | .ok true =>
      match task_response with
      | .obj kvs =>
          match dictGet kvs "data" with
          | some data =>
              match pyContains data "taskId" with
              | .error _ => .error none
              | .ok false => .error (some ⟨500, "Failed to create upscaling task"⟩)
              | .ok true =>
                  match data with
                  | .obj dkvs =>
                      match dictGet dkvs "taskId" with
                      | some tid => .ok tid
                      | none =>
                          .error (some ⟨500, "Failed to create upscaling task"⟩)
                  | _ => .error none
          | none => .error none
      | _ => .error none

/-- The observable result of the one remote `POST /start-task`
interaction made by `UpscayleService.upscale_images`. -/
inductive StartAttempt where
  | failure (msg : String)
  | unparsable (msg : String)
  | reply (body : Json)

/-- `UpscayleService.upscale_images` (lines 22–86) as a function of the
remote interaction's observable outcome: a `requests` exception becomes
`HTTPException(500, "Error communicating with Upscayl API: ...")`
(lines 77–81), any other exception — e.g. an unparseable body — becomes
`HTTPException(500, "Error processing upscale request: ...")`
(lines 82–86), and a parsed body is returned as is (line 75). -/
def upscale_images_result (a : StartAttempt) : Except HTTPError Json :=
  match a with
  | .failure msg => .error ⟨500, "Error communicating with Upscayl API: " ++ msg⟩
  | .unparsable msg => .error ⟨500, "Error processing upscale request: " ++ msg⟩
  | .reply body => .ok body

/-- `upscale_images_sync` (lines 146–239) as a function of the start
call's observable result and the per-iteration environments: a failure of
`upscale_images` propagates immediately (it is outside any `try`), a body
without the nested task id raises `HTTPException(500, ...)` — both before
any `get_task_status` call — and otherwise the poll loop runs with
`poll_index = 0`. -/
def upscale_images_sync (start : StartAttempt)
    (max_wait_time : ℚ) (iters : List IterInput) : RunTrace :=
  match upscale_images_result start with
  | .error e => ⟨some (.httpError e), 0, []⟩
  | .ok task_response =>
      match startTaskId task_response with
      | .error (some e) => ⟨some (.httpError e), 0, []⟩
      | .error none => ⟨some .pyError, 0, []⟩
      | .ok task_id => pollLoop task_id max_wait_time 0 iters

/-- Metadata of one `UploadFile` as the route validation sees it. -/
structure UploadFileMeta where
  filename : String
  content_type : String

/-- `allowed_types` (`upscayle_route.py` line 40). -/
def allowed_types : List String :=
  ["image/jpeg", "image/jpg", "image/png", "image/webp"]

/-- The multipart start call issued by `UpscayleService.upscale_images`
(lines 39–70): indexed file parts `f"{idx}.file"` and the form payload.
Only constructed when validation passes, so a value of this type marks
that the outbound `POST /start-task` request was issued. -/
structure StartCall where
  fileParts : List (String × String × String)
  model : String
  scale : String
  saveImageAs : String
  enhanceFace : String
  urls : Option String

/-- The request construction of `UpscayleService.upscale_images`
(lines 39–55): `files_data` keys are `f"{idx}.file"`, `enhanceFace` is
`str(bool).lower()`, `urls` is JSON-encoded only when provided (the route
never provides it). The JSON encoding of the url list is abstracted to
its comma-joined members (no claim inspects it). -/
def buildStartCall (files : List UploadFileMeta) (model scale saveImageAs : String)
    (enhanceFace : Bool) (urls : Option (List String)) : StartCall :=
  { fileParts := files.enum.map (fun p => (toString p.1 ++ ".file", p.2.filename, p.2.content_type))
    model := model
    scale := scale
    saveImageAs := saveImageAs
    enhanceFace := if enhanceFace then "true" else "false"
    urls := urls.map (String.intercalate ",") }

/-- The `POST /upscale/images` route handler (`upscayle_route.py`
lines 14–59) up to the point the service issues the remote call:
more than 3 files raises `HTTPException(400, ...)`; then each file's
content type is checked against `allowed_types` in order and the first
offender raises `HTTPException(400, ...)`; only then is the start call
built and issued. -/
def upscale_images_route (files : List UploadFileMeta)
    (model scale saveImageAs : String) (enhanceFace : Bool) :
    Except HTTPError StartCall :=
  if files.length > 3 then
    .error ⟨400, "Maximum 3 files allowed per request"⟩
  else
    match files.find? (fun f => !(allowed_types.contains f.content_type)) with
    | some f =>
        .error ⟨400, "Invalid file type: " ++ f.content_type ++ ". Allowed: " ++
          String.intercalate ", " allowed_types⟩
    | none => .ok (buildStartCall files model scale saveImageAs enhanceFace none)

/-- An iteration environment on which the loop keeps polling: the
`get_task_status` call returns a payload the loop classifies as
in-progress, and the injected clock has not passed the deadline. -/
def isInProgressStep (mw : ℚ) (it : IterInput) : Bool :=
  (match get_task_status it.attempt with
   | .ok resp =>
       match classifyStatus resp with
       | .inProgress _ => true
       | _ => false
   | .error _ => false) && decide (it.elapsed ≤ mw)

/-- An iteration environment on which the loop hits the deadline: the
payload still classifies as in-progress but the clock has passed
`max_wait_time` at the line-226 check. -/
def timesOutStep (mw : ℚ) (it : IterInput) : Bool :=
  (match get_task_status it.attempt with
   | .ok resp =>
       match classifyStatus resp with
       | .inProgress _ => true
       | _ => false
   | .error _ => false) && decide (mw < it.elapsed)

/-- Whether a JSON value is a string. -/
def Json.isStr : Json → Bool
  | .str _ => true
  | _ => false

/-- The bucket of a normalized outcome, forgetting the carried payload. -/
def TaskOutcome.kind : TaskOutcome → String
  | .inProgress _ => "InProgress"
  | .completed _ => "Completed"
  | .failed _ => "Failed"

/-- A well-formed status payload whose `data` dict starts with the given
status string; `extra` holds the remaining fields of the `data` dict. -/
def statusPayload (s : String) (extra : List (String × Json)) : Json :=
  .obj [("data", .obj (("status", .str s) :: extra))]

/-- A remote status body the loop classifies as still in progress. -/
def pendingBody : Json := statusPayload "PENDING" []

/-- A remote status body the loop classifies as completed. -/
def processedBody : Json := statusPayload "PROCESSED" []

/-- A start-call body carrying the nested task id `"t1"`. -/
def startBodyT1 : Json := .obj [("data", .obj [("taskId", .str "t1")])]

/-- An iteration environment that stays in progress, with the injected
clock reading `t` at the timeout check. -/
def pendingIter (t : ℚ) : IterInput := ⟨.reply pendingBody, t⟩

/-- Twelve consecutive in-progress iteration environments. -/
def iters12 : List IterInput := List.replicate 12 (pendingIter 0)

end Upscayl

namespace Upscayl

/-! ### Infrastructure lemmas -/

theorem charToUpper_idem (c : Char) : c.toUpper.toUpper = c.toUpper := by
  have hdef : ∀ d : Char,
      d.toUpper = if d.toNat ≥ 97 ∧ d.toNat ≤ 122 then Char.ofNat (d.toNat - 32) else d :=
    fun d => rfl
  by_cases h : c.toNat ≥ 97 ∧ c.toNat ≤ 122
  · rw [hdef c, if_pos h]
    obtain ⟨h1, h2⟩ := h
    set n := c.toNat with hn
    interval_cases n <;> decide
  · rw [hdef c, if_neg h, hdef c, if_neg h]

theorem pyUpper_eq_toUpper (s : String) : pyUpper s = s.toUpper := by
  simp [pyUpper, String.toUpper, String.map_eq]

theorem pyUpper_idem (s : String) : pyUpper (pyUpper s) = pyUpper s := by
  simp only [pyUpper, List.map_map]
  congr 1
  induction s.data with
  | nil => rfl
  | cons c cs ih =>
      simp only [List.map_cons, Function.comp_apply, charToUpper_idem]
      simpa using ih

theorem dictGet_dictSet_self (kvs : List (String × Json)) (k : String) (v : Json) :
    dictGet (dictSet kvs k v) k = some v := by
  induction kvs with
  | nil =>
      simp only [dictSet, dictGet]
      rw [List.find?_cons_of_pos _ (by simp)]
      rfl
  | cons kv rest ih =>
      by_cases h : kv.1 = k
      · simp only [dictSet, if_pos h, dictGet]
        rw [List.find?_cons_of_pos _ (by simp [h])]
        rfl
      · simp only [dictSet, if_neg h, dictGet] at ih ⊢
        rw [List.find?_cons_of_neg _ (by simp [h])]
        exact ih

theorem dictGet_dictSet_ne (kvs : List (String × Json)) (k k' : String) (v : Json)
    (h : k' ≠ k) : dictGet (dictSet kvs k v) k' = dictGet kvs k' := by
  induction kvs with
  | nil =>
      simp only [dictSet, dictGet]
      rw [List.find?_cons_of_neg _ (by simp [Ne.symm h])]
  | cons kv rest ih =>
      by_cases hk : kv.1 = k
      · simp only [dictSet, if_pos hk, dictGet]
        rw [List.find?_cons_of_neg _ (by simp [hk, Ne.symm h]),
          List.find?_cons_of_neg _ (by simp [hk, Ne.symm h])]
      · simp only [dictSet, if_neg hk, dictGet] at ih ⊢
        by_cases hk' : kv.1 = k'
        · rw [List.find?_cons_of_pos _ (by simp [hk']),
            List.find?_cons_of_pos _ (by simp [hk'])]
        · rw [List.find?_cons_of_neg _ (by simp [hk']),
            List.find?_cons_of_neg _ (by simp [hk'])]
          exact ih

theorem dictGet_cons_self (k : String) (v : Json) (rest : List (String × Json)) :
    dictGet ((k, v) :: rest) k = some v := by
  unfold dictGet
  rw [List.find?_cons_of_pos _ (by simp)]
  rfl

theorem dictGet_cons_ne (k k' : String) (v : Json) (rest : List (String × Json))
    (h : k' ≠ k) : dictGet ((k, v) :: rest) k' = dictGet rest k' := by
  unfold dictGet
  rw [List.find?_cons_of_neg _ (by simp [Ne.symm h])]

theorem classify_statusPayload (s : String) (extra : List (String × Json)) :
    classifyStatus (statusPayload s extra) =
      if pyUpper s ∈ completedStatuses then TaskOutcome.completed (statusPayload s extra)
      else if pyUpper s ∈ failedStatuses then
        TaskOutcome.failed (pyStr ((dictGet extra "error").getD (.str "Unknown error")))
      else TaskOutcome.inProgress (pyUpper s) := by
  unfold classifyStatus classifyCore statusPayload
  simp only [pyContains, dictGet_cons_self, Option.isSome_some, Option.getD_some,
    dictGet_cons_ne "status" "error" (.str s) extra (by decide)]
  by_cases h1 : pyUpper s ∈ completedStatuses
  · rw [if_pos h1, if_pos h1]
  · rw [if_neg h1, if_neg h1]
    by_cases h2 : pyUpper s ∈ failedStatuses
    · rw [if_pos h2, if_pos h2]
    · rw [if_neg h2, if_neg h2]

theorem classify_statusPayload_tail (s : String) (extra tail : List (String × Json)) :
    classifyStatus (.obj (("data", .obj (("status", .str s) :: extra)) :: tail)) =
      if pyUpper s ∈ completedStatuses then
        TaskOutcome.completed
          (.obj (("data", .obj (("status", .str s) :: extra)) :: tail))
      else if pyUpper s ∈ failedStatuses then
        TaskOutcome.failed (pyStr ((dictGet extra "error").getD (.str "Unknown error")))
      else TaskOutcome.inProgress (pyUpper s) := by
  unfold classifyStatus classifyCore
  simp only [pyContains, dictGet_cons_self, Option.isSome_some, Option.getD_some,
    dictGet_cons_ne "status" "error" (.str s) extra (by decide)]
  by_cases hc1 : pyUpper s ∈ completedStatuses
  · rw [if_pos hc1, if_pos hc1]
  · rw [if_neg hc1, if_neg hc1]
    by_cases hc2 : pyUpper s ∈ failedStatuses
    · rw [if_pos hc2, if_pos hc2]
    · rw [if_neg hc2, if_neg hc2]

theorem pollLoop_cons_inProgress (tid : Json) (mw : ℚ) (k : Nat) (it : IterInput)
    (rest : List IterInput) (h : isInProgressStep mw it = true) :
    pollLoop tid mw k (it :: rest) =
      ⟨(pollLoop tid mw (k + 1) rest).outcome,
       (pollLoop tid mw (k + 1) rest).checks + 1,
       intervalAt k :: (pollLoop tid mw (k + 1) rest).sleeps⟩ := by
  unfold isInProgressStep at h
  rw [Bool.and_eq_true] at h
  obtain ⟨h1, h2⟩ := h
  have hle : it.elapsed ≤ mw := of_decide_eq_true h2
  cases hg : get_task_status it.attempt with
  | error e => rw [hg] at h1; simp at h1
  | ok resp =>
      rw [hg] at h1
      have h1' : (match classifyStatus resp with
          | TaskOutcome.inProgress _ => true
          | _ => false) = true := h1
      cases hc : classifyStatus resp with
      | completed r => rw [hc] at h1'; simp at h1'
      | failed m => rw [hc] at h1'; simp at h1'
      | inProgress s =>
          simp only [pollLoop, hg, hc]
          rw [if_neg (by exact not_lt.mpr hle)]

theorem pollLoop_append (tid : Json) (mw : ℚ) (pre post : List IterInput) (k : Nat)
    (h : ∀ it ∈ pre, isInProgressStep mw it = true) :
    pollLoop tid mw k (pre ++ post) =
      ⟨(pollLoop tid mw (k + pre.length) post).outcome,
       pre.length + (pollLoop tid mw (k + pre.length) post).checks,
       (List.range pre.length).map (fun i => intervalAt (k + i)) ++
         (pollLoop tid mw (k + pre.length) post).sleeps⟩ := by
  induction pre generalizing k with
  | nil => simp
  | cons it pre ih =>
      rw [List.cons_append,
        pollLoop_cons_inProgress tid mw k it (pre ++ post)
          (h it (List.mem_cons_self it _)),
        ih (k + 1) (fun it' hm => h it' (List.mem_cons_of_mem _ hm))]
      simp only [List.length_cons]
      have harg : k + 1 + pre.length = k + (pre.length + 1) := by omega
      rw [harg]
      congr 1
      · omega
      · rw [List.range_succ_eq_map, List.map_cons, List.map_map, Nat.add_zero,
          List.cons_append]
        congr 2
        apply List.map_congr_left
        intro i _
        simp only [Function.comp_apply]
        congr 1
        omega

/-! ### Claim theorems -/

/-- C2: a request whose file list has more than 3 files, or contains a
file whose content type is outside
{image/jpeg, image/jpg, image/png, image/webp}, fails at the route
validation with an `HTTPException` of status 400, and the start call — the
only place the outbound request is built and issued — is never reached. -/
theorem validation_rejects_before_remote_call (files : List UploadFileMeta)
    (model scale saveImageAs : String) (enhanceFace : Bool)
    (h : 3 < files.length ∨ ∃ f ∈ files, f.content_type ∉ allowed_types) :
    ∃ e : HTTPError,
      upscale_images_route files model scale saveImageAs enhanceFace =
        .error e ∧ e.status_code = 400 := by
  unfold upscale_images_route
  by_cases hlen : files.length > 3
  · rw [if_pos hlen]
    exact ⟨_, rfl, rfl⟩
  · rw [if_neg hlen]
    rcases h with h3 | ⟨f, hf, hft⟩
    · exact absurd h3 hlen
    · have hfind : (files.find?
          (fun f => !(allowed_types.contains f.content_type))).isSome := by
        rw [List.find?_isSome]
        refine ⟨f, hf, ?_⟩
        simpa using hft
      obtain ⟨g, hg⟩ := Option.isSome_iff_exists.mp hfind
      rw [hg]
      exact ⟨_, rfl, rfl⟩

/-- Witness for C2 at a concrete input: four PNG files are rejected. -/
theorem validation_rejects_before_remote_call_witness :
    ∃ e : HTTPError,
      upscale_images_route
        [⟨"a.png", "image/png"⟩, ⟨"b.png", "image/png"⟩,
         ⟨"c.png", "image/png"⟩, ⟨"d.png", "image/png"⟩]
        "upscayl-standard-4x" "4" "jpg" true = .error e ∧
      e.status_code = 400 :=
  validation_rejects_before_remote_call _ _ _ _ _ (Or.inl (by decide))

/-- C3: when the first `n` status checks all stay non-terminal (and the
deadline has not passed), the sleeps performed between checks are the
first `n` elements of the backoff schedule extended by its last value:
`(List.range n).map intervalAt`, with `intervalAt i = 10` from index 8 on;
across 12 in-progress iterations the waits are
`[0.5, 0.5, 1, 1, 2, 2, 3, 5, 10, 10, 10, 10]`; and no sleep precedes the
very first status check — a run whose first check is terminal performs
zero sleeps. -/
theorem backoff_schedule (tid : Json) (mw : ℚ) (iters : List IterInput)
    (h : ∀ it ∈ iters, isInProgressStep mw it = true) :
    (pollLoop tid mw 0 iters).sleeps = (List.range iters.length).map intervalAt ∧
    (pollLoop tid mw 0 iters).checks = iters.length ∧
    (iters.length = 12 →
      (pollLoop tid mw 0 iters).sleeps =
        [1/2, 1/2, 1, 1, 2, 2, 3, 5, 10, 10, 10, 10]) ∧
    (∀ i : Nat, 8 ≤ i → intervalAt i = 10) ∧
    (∀ (it : IterInput) (rest : List IterInput) (resp r : Json),
      get_task_status it.attempt = .ok resp →
      classifyStatus resp = .completed r →
      pollLoop tid mw 0 (it :: rest) = ⟨some (.ok r), 1, []⟩) := by
  have hmain := pollLoop_append tid mw iters [] 0 h
  rw [List.append_nil] at hmain
  have h0 : pollLoop tid mw (0 + iters.length) [] = ⟨none, 0, []⟩ := rfl
  rw [h0] at hmain
  have hs : (pollLoop tid mw 0 iters).sleeps =
      (List.range iters.length).map intervalAt := by
    rw [hmain]
    simp
  have hc : (pollLoop tid mw 0 iters).checks = iters.length := by
    rw [hmain]
    simp
  refine ⟨hs, hc, ?_, ?_, ?_⟩
  · intro h12
    rw [hs, h12]
    simp [List.range_succ, intervalAt, poll_intervals]
  · intro i hi
    have hlen : poll_intervals.length - 1 = 8 := rfl
    unfold intervalAt
    rw [hlen, Nat.min_eq_right hi]
    rfl
  · intro it rest resp r hg hc2
    simp only [pollLoop, hg, hc2]

/-- Witness for C3: twelve simulated in-progress iterations produce
exactly the waits `[0.5, 0.5, 1, 1, 2, 2, 3, 5, 10, 10, 10, 10]`. -/
theorem backoff_schedule_witness :
    (pollLoop (.str "t1") 1200 0 iters12).sleeps =
      [1/2, 1/2, 1, 1, 2, 2, 3, 5, 10, 10, 10, 10] :=
  (backoff_schedule (.str "t1") 1200 iters12 (by decide)).2.2.1 (by decide)

/-- C6: in a run whose status checks all stay non-terminal, the first
iteration whose injected clock exceeds `max_wait_time` at the line-226
check ends the loop with `HTTPException(408, ...)`; the timing-out
iteration still performs its status check (`pre.length + 1` checks) but
no sleep (`pre.length` sleeps, one per earlier iteration), and the 408
detail string carries the task handle. -/
theorem polling_timeout (tid : Json) (mw : ℚ) (pre : List IterInput)
    (t : IterInput) (rest : List IterInput)
    (hpre : ∀ it ∈ pre, isInProgressStep mw it = true)
    (hto : timesOutStep mw t = true) :
    pollLoop tid mw 0 (pre ++ t :: rest) =
      ⟨some (.httpError ⟨408, timeoutDetail tid t.elapsed⟩),
       pre.length + 1,
       (List.range pre.length).map intervalAt⟩ ∧
    ∃ a b, timeoutDetail tid t.elapsed = a ++ pyStr tid ++ b := by
  constructor
  · rw [pollLoop_append tid mw pre (t :: rest) 0 hpre]
    unfold timesOutStep at hto
    rw [Bool.and_eq_true] at hto
    obtain ⟨h1, h2⟩ := hto
    have hgt : mw < t.elapsed := of_decide_eq_true h2
    cases hg : get_task_status t.attempt with
    | error e => rw [hg] at h1; simp at h1
    | ok resp =>
        rw [hg] at h1
        have h1' : (match classifyStatus resp with
            | TaskOutcome.inProgress _ => true
            | _ => false) = true := h1
        cases hc : classifyStatus resp with
        | completed r => rw [hc] at h1'; simp at h1'
        | failed m => rw [hc] at h1'; simp at h1'
        | inProgress s =>
            simp only [pollLoop, hg, hc]
            rw [if_pos hgt]
            simp
  · exact ⟨"Task processing timeout after " ++ toString (pyInt t.elapsed) ++
        " seconds. Task ID: ",
      ". Check status at /upscale/task/" ++ pyStr tid,
      by simp [timeoutDetail, String.append_assoc]⟩

/-- Witness for C6: with a 5-second deadline and checks at 1s, 2s and 6s
that all stay in progress, the run times out at the third check, after
exactly two sleeps. -/
theorem polling_timeout_witness :
    pollLoop (.str "t1") 5 0 [pendingIter 1, pendingIter 2, pendingIter 6] =
      ⟨some (.httpError ⟨408, timeoutDetail (.str "t1") 6⟩), 3,
       (List.range 2).map intervalAt⟩ :=
  (polling_timeout (.str "t1") 5 [pendingIter 1, pendingIter 2] (pendingIter 6) []
    (by decide) (by decide)).1

/-- C1 counterexample: the claim predicts that a transport error on the
first `get_task_status` call is absorbed and polling continues to the
second check (which would complete the task); on the code, the
`HTTPException(500, ...)` raised by `get_task_status` is re-raised by the
loop's `except HTTPException: raise`, so the run aborts after exactly one
status check with that 500 error and never reaches the completing
response. -/
theorem transport_error_transient_counterexample :
    (upscale_images_sync (.reply startBodyT1) 1200
        [⟨.failure "connection refused", 1⟩, ⟨.reply processedBody, 2⟩]) =
      ⟨some (.httpError ⟨500, "Error fetching task status: connection refused"⟩),
       1, []⟩ := by
  rfl

/-- C1 (amended): an iteration of the polling loop whose
`get_task_status` call fails with a transport or protocol error does not
continue polling: the `HTTPException(500, ...)` produced at
`get_task_status`'s lines 135–139 is re-raised by the loop's
`except HTTPException: raise` (lines 220–221), aborting the run at that
status check with no further checks and no sleep. -/
theorem transport_error_aborts_loop (tid : Json) (mw : ℚ) (k : Nat)
    (msg : String) (elapsed : ℚ) (rest : List IterInput) :
    pollLoop tid mw k (⟨.failure msg, elapsed⟩ :: rest) =
      ⟨some (.httpError ⟨500, "Error fetching task status: " ++ msg⟩), 1, []⟩ := by
  rfl

/-- C9: when the start call raises, or the start body lacks the nested
`data.taskId` field, `upscale_images_sync` fails at once — zero status
checks, zero sleeps — and the failure is a server error: a raised
`HTTPException` with status 500 or an uncaught Python error (which the
framework turns into a generic 500). -/
theorem start_failure_is_fatal (start : StartAttempt) (mw : ℚ)
    (iters : List IterInput)
    (h : (∃ e, upscale_images_result start = .error e) ∨
      (∃ body, upscale_images_result start = .ok body ∧
        ∀ tid, startTaskId body ≠ .ok tid)) :
    (upscale_images_sync start mw iters).checks = 0 ∧
    (upscale_images_sync start mw iters).sleeps = [] ∧
    ((upscale_images_sync start mw iters).outcome = some .pyError ∨
      ∃ e, (upscale_images_sync start mw iters).outcome =
        some (.httpError e) ∧ e.status_code = 500) := by
  cases start with
  | failure msg => exact ⟨rfl, rfl, Or.inr ⟨_, rfl, rfl⟩⟩
  | unparsable msg => exact ⟨rfl, rfl, Or.inr ⟨_, rfl, rfl⟩⟩
  | reply body =>
      rcases h with ⟨e, he⟩ | ⟨body', hb, hno⟩
      · exact absurd he (by simp [upscale_images_result])
      · have hbody : body' = body := by
          have : Except.ok (ε := HTTPError) body = Except.ok body' := by
            rw [← hb]; rfl
          exact (Except.ok.injEq .. ▸ this).symm
        subst hbody
        cases hs : startTaskId body' with
        | ok tid => exact absurd hs (hno tid)
        | error oe =>
            cases oe with
            | none =>
                refine ⟨?_, ?_, Or.inl ?_⟩ <;>
                  simp only [upscale_images_sync, upscale_images_result, hs]
            | some e =>
                have h500 : e.status_code = 500 := by
                  unfold startTaskId at hs
                  repeat' split at hs
                  all_goals simp_all
                  all_goals (cases hs; rfl)
                refine ⟨?_, ?_, Or.inr ⟨e, ?_, h500⟩⟩ <;>
                  simp only [upscale_images_sync, upscale_images_result, hs]

/-- Witness for C9: a start body whose `data` dict has no `taskId` makes
the run fail with zero status checks. -/
theorem start_failure_is_fatal_witness :
    (upscale_images_sync (.reply (.obj [("data", .obj [])])) 1200
      [pendingIter 1]).checks = 0 :=
  (start_failure_is_fatal (.reply (.obj [("data", .obj [])])) 1200 [pendingIter 1]
    (Or.inr ⟨.obj [("data", .obj [])], rfl,
      fun _ h => Except.noConfusion h⟩)).1

/-- C5: status classification is case-insensitive — classifying a payload
whose status is `s` lands in the same bucket (and carries the same
in-progress status or failure reason) as classifying the payload whose
status is `s` uppercased; `"processed"`, `"PROCESSED"` and `"Processed"`
all classify as completed; and a status that uppercases into
{FAILED, ERROR} classifies as failed with the reason taken from the
`error` field, or `"Unknown error"` when that field is absent. -/
theorem classification_case_insensitive (s : String)
    (extra : List (String × Json)) :
    ((classifyStatus (statusPayload s extra)).kind =
      (classifyStatus (statusPayload (pyUpper s) extra)).kind ∧
     pyUpper s = s.toUpper) ∧
    (classifyStatus (statusPayload "processed" extra) =
        .completed (statusPayload "processed" extra) ∧
     classifyStatus (statusPayload "PROCESSED" extra) =
        .completed (statusPayload "PROCESSED" extra) ∧
     classifyStatus (statusPayload "Processed" extra) =
        .completed (statusPayload "Processed" extra)) ∧
    (pyUpper s ∈ failedStatuses →
      classifyStatus (statusPayload s extra) =
        .failed (pyStr ((dictGet extra "error").getD (.str "Unknown error")))) := by
  refine ⟨⟨?_, pyUpper_eq_toUpper s⟩, ⟨?_, ?_, ?_⟩, ?_⟩
  · rw [classify_statusPayload, classify_statusPayload, pyUpper_idem]
    by_cases h1 : pyUpper s ∈ completedStatuses
    · simp only [if_pos h1]
      rfl
    · simp only [if_neg h1]
  · rw [classify_statusPayload,
      if_pos (show pyUpper "processed" ∈ completedStatuses by decide)]
  · rw [classify_statusPayload,
      if_pos (show pyUpper "PROCESSED" ∈ completedStatuses by decide)]
  · rw [classify_statusPayload,
      if_pos (show pyUpper "Processed" ∈ completedStatuses by decide)]
  · intro hf
    have hnc : pyUpper s ∉ completedStatuses := by
      simp only [failedStatuses, List.mem_cons, List.not_mem_nil, or_false] at hf
      rcases hf with h | h <;> rw [h] <;> decide
    rw [classify_statusPayload, if_neg hnc, if_pos hf]

/-- Witness for C5 at concrete inputs: a lowercase `"failed"` status with
an `error` field classifies as failed with that reason. -/
theorem classification_case_insensitive_witness :
    classifyStatus (statusPayload "failed" [("error", .str "boom")]) =
      .failed "boom" :=
  (classification_case_insensitive "failed" [("error", .str "boom")]).2.2
    (by decide)

/-- C8: a status string whose uppercasing is in neither terminal list
classifies as in-progress (never as a failure), and so do a payload whose
`data` dict has no `status` field and a payload with no `data` key at
all; and on an iteration whose remote reply carries such an
unknown-status payload (which `get_task_status` returns augmented with
`image_urls`/`task_status` before the loop classifies it), within the
deadline, the loop performs the check and keeps polling — one more check
than the remaining run, a sleep, no termination. -/
theorem unknown_status_keeps_polling (s : String) (extra : List (String × Json))
    (h1 : pyUpper s ∉ completedStatuses) (h2 : pyUpper s ∉ failedStatuses) :
    classifyStatus (statusPayload s extra) = .inProgress (pyUpper s) ∧
    (∀ dkvs : List (String × Json), dictGet dkvs "status" = none →
      classifyStatus (.obj [("data", .obj dkvs)]) = .inProgress "") ∧
    (∀ kvs : List (String × Json), dictGet kvs "data" = none →
      classifyStatus (.obj kvs) = .inProgress "") ∧
    (∀ (tid : Json) (mw elapsed : ℚ) (k : Nat) (rest : List IterInput),
      elapsed ≤ mw →
      pollLoop tid mw k (⟨.reply (statusPayload s extra), elapsed⟩ :: rest) =
        ⟨(pollLoop tid mw (k + 1) rest).outcome,
         (pollLoop tid mw (k + 1) rest).checks + 1,
         intervalAt k :: (pollLoop tid mw (k + 1) rest).sleeps⟩) := by
  have hcls : classifyStatus (statusPayload s extra) = .inProgress (pyUpper s) := by
    rw [classify_statusPayload, if_neg h1, if_neg h2]
  refine ⟨hcls, ?_, ?_, ?_⟩
  · intro dkvs hd
    unfold classifyStatus classifyCore
    simp only [pyContains, dictGet_cons_self, Option.isSome_some, hd]
    rfl
  · intro kvs hd
    unfold classifyStatus classifyCore
    simp only [pyContains, hd]
    rfl
  · intro tid mw elapsed k rest hle
    apply pollLoop_cons_inProgress
    unfold isInProgressStep
    have hget : get_task_status (RemoteAttempt.reply (statusPayload s extra)) =
        .ok (.obj [("data", .obj (("status", .str s) :: extra)),
          ("image_urls", .arr (extractImageUrls (("status", .str s) :: extra))),
          ("task_status", .str s)]) := rfl
    have hcls2 : classifyStatus
        (.obj [("data", .obj (("status", .str s) :: extra)),
          ("image_urls", .arr (extractImageUrls (("status", .str s) :: extra))),
          ("task_status", .str s)]) = .inProgress (pyUpper s) := by
      rw [classify_statusPayload_tail, if_neg h1, if_neg h2]
    simp only [hget, hcls2]
    simp [hle]

/-- Witness for C8: an iteration whose reply carries the undocumented
status `"ENHANCING"` at 1s of a 1200s deadline keeps the loop polling —
the check is performed, a sleep follows, and the run continues on the
remaining iterations. -/
theorem unknown_status_keeps_polling_witness :
    pollLoop (.str "t1") 1200 0
        [⟨.reply (statusPayload "ENHANCING" []), 1⟩] =
      ⟨(pollLoop (.str "t1") 1200 1 []).outcome,
       (pollLoop (.str "t1") 1200 1 []).checks + 1,
       intervalAt 0 :: (pollLoop (.str "t1") 1200 1 []).sleeps⟩ :=
  (unknown_status_keeps_polling "ENHANCING" [] (by decide) (by decide)).2.2.2
    (.str "t1") 1200 1 0 [] (by decide)

/-- C7: the loop-level normalization is total — every payload classifies
as exactly one of in-progress / completed / failed — and on the malformed
shapes the spec enumerates no Python exception is even raised: a dict
without a `data` key, and a `data` dict without a `status` field, run the
`try` body to an in-progress outcome (`classifyCore` returns `.ok`), and
a `data` dict with a `files` list of entries of any unexpected shape
still makes `get_task_status`'s post-processing return normally. -/
theorem normalize_total (resp : Json) :
    ((∃ s, classifyStatus resp = .inProgress s) ∨
     (∃ r, classifyStatus resp = .completed r) ∨
     (∃ m, classifyStatus resp = .failed m)) ∧
    (∀ kvs : List (String × Json), resp = .obj kvs →
      dictGet kvs "data" = none →
      classifyCore resp = .ok (.inProgress "")) ∧
    (∀ kvs dkvs : List (String × Json), resp = .obj kvs →
      dictGet kvs "data" = some (.obj dkvs) → dictGet dkvs "status" = none →
      classifyCore resp = .ok (.inProgress "")) ∧
    (∀ kvs dkvs : List (String × Json), resp = .obj kvs →
      dictGet kvs "data" = some (.obj dkvs) →
      ∃ out, processStatusResponse resp = .ok out) := by
  refine ⟨?_, ?_, ?_, ?_⟩
  · cases h : classifyStatus resp with
    | inProgress s => exact Or.inl ⟨s, rfl⟩
    | completed r => exact Or.inr (Or.inl ⟨r, rfl⟩)
    | failed m => exact Or.inr (Or.inr ⟨m, rfl⟩)
  · intro kvs hresp hd
    subst hresp
    unfold classifyCore
    simp only [pyContains, hd]
    rfl
  · intro kvs dkvs hresp hd hs
    subst hresp
    unfold classifyCore
    simp only [pyContains, hd, hs, Option.isSome_some, Option.getD_none]
    rfl
  · intro kvs dkvs hresp hd
    subst hresp
    refine ⟨.obj (dictSet (dictSet kvs "image_urls" (.arr (extractImageUrls dkvs)))
      "task_status" ((dictGet dkvs "status").getD (.str ""))), ?_⟩
    unfold processStatusResponse
    simp only [pyContains, hd, Option.isSome_some]

/-- Witness for C7: a dict payload with no `data` key runs the `try` body
to the in-progress outcome without raising. -/
theorem normalize_total_witness :
    classifyCore (.obj []) = .ok (.inProgress "") :=
  (normalize_total (.obj [])).2.1 [] rfl rfl

/-- C4: the `urls` list is derived from the `files` entries in order —
an entry with a `url` field contributes that value (even when `path` is
also present, since `dictGet` takes the first lookup result and the
`url` branch is tried first), an entry with only a `path` contributes
`base_url ++ "/" ++ path`, an entry with neither is skipped, and
`extractImageUrls` is the order-preserving `filterMap` of that per-entry
derivation over the `files` list. -/
theorem url_derivation (u p : Json) (kvs data : List (String × Json))
    (entries : List Json) :
    (dictGet kvs "url" = some u → urlOfFileInfo (.obj kvs) = some u) ∧
    (dictGet kvs "url" = none → dictGet kvs "path" = some p →
      urlOfFileInfo (.obj kvs) = some (.str (base_url ++ "/" ++ pyStr p))) ∧
    (dictGet kvs "url" = none → dictGet kvs "path" = none →
      urlOfFileInfo (.obj kvs) = none) ∧
    (dictGet data "files" = some (.arr entries) →
      extractImageUrls data = entries.filterMap urlOfFileInfo) ∧
    (∀ (e : Json) (es : List Json),
      (e :: es).filterMap urlOfFileInfo =
        (urlOfFileInfo e).toList ++ es.filterMap urlOfFileInfo) := by
  refine ⟨?_, ?_, ?_, ?_, ?_⟩
  · intro hu
    simp only [urlOfFileInfo, hu]
  · intro hu hp
    simp only [urlOfFileInfo, hu, hp]
  · intro hu hp
    simp only [urlOfFileInfo, hu, hp]
  · intro hf
    simp only [extractImageUrls, hf]
  · intro e es
    cases he : urlOfFileInfo e with
    | none => simp [List.filterMap_cons, he]
    | some v => simp [List.filterMap_cons, he]

/-- Witness for C4 at the spec's concrete inputs: with both
`url: "http://x/a.png"` and `path: "b.png"` the direct URL wins; with
only `path: "b.png"` the base URL is joined. -/
theorem url_derivation_witness :
    urlOfFileInfo (.obj [("url", .str "http://x/a.png"), ("path", .str "b.png")]) =
      some (.str "http://x/a.png") ∧
    urlOfFileInfo (.obj [("path", .str "b.png")]) =
      some (.str (base_url ++ "/" ++ pyStr (.str "b.png"))) :=
  ⟨(url_derivation (.str "http://x/a.png") (.str "b.png")
      [("url", .str "http://x/a.png"), ("path", .str "b.png")] [] []).1 rfl,
   (url_derivation (.str "http://x/a.png") (.str "b.png")
      [("path", .str "b.png")] [] []).2.1 rfl rfl⟩

/-- C10 counterexample: the claim asserts `task_status` is always a
string; for the response `{"data": {"status": 42}}` the code returns the
augmented dict with `task_status` equal to the number 42, which is not a
string. -/
theorem get_status_frame_counterexample :
    processStatusResponse (.obj [("data", .obj [("status", .num 42)])]) =
      .ok (.obj [("data", .obj [("status", .num 42)]),
        ("image_urls", .arr []), ("task_status", .num 42)]) ∧
    Json.isStr (.num 42) = false := by
  exact ⟨rfl, rfl⟩

/-- C10 (amended): for a dict response whose `data` key holds a dict,
`get_task_status` returns the response augmented with exactly the two
keys `image_urls` — always a list — and `task_status` — the `data` dict's
`status` value when present and `""` when absent (hence a string only
when that value is a string or absent) — leaving every other key
unchanged; a dict response without a `data` key is returned verbatim
with neither key added. -/
theorem get_status_frame (kvs dkvs : List (String × Json))
    (h : dictGet kvs "data" = some (.obj dkvs)) :
    (∃ kvs' : List (String × Json),
      processStatusResponse (.obj kvs) = .ok (.obj kvs') ∧
      dictGet kvs' "image_urls" = some (.arr (extractImageUrls dkvs)) ∧
      dictGet kvs' "task_status" = some ((dictGet dkvs "status").getD (.str "")) ∧
      ∀ k, k ≠ "image_urls" → k ≠ "task_status" →
        dictGet kvs' k = dictGet kvs k) ∧
    (∀ kvs₂ : List (String × Json), dictGet kvs₂ "data" = none →
      processStatusResponse (.obj kvs₂) = .ok (.obj kvs₂)) := by
  constructor
  · refine ⟨dictSet (dictSet kvs "image_urls" (.arr (extractImageUrls dkvs)))
      "task_status" ((dictGet dkvs "status").getD (.str "")), ?_, ?_, ?_, ?_⟩
    · unfold processStatusResponse
      simp only [pyContains, h, Option.isSome_some]
    · rw [dictGet_dictSet_ne _ _ _ _ (by decide), dictGet_dictSet_self]
    · rw [dictGet_dictSet_self]
    · intro k hk1 hk2
      rw [dictGet_dictSet_ne _ _ _ _ hk2, dictGet_dictSet_ne _ _ _ _ hk1]
  · intro kvs₂ hd
    unfold processStatusResponse
    simp only [pyContains, hd]
    rfl

/-- Witness for C10 (amended) at a concrete input: a response with one
file entry and an extra top-level key keeps that key unchanged and gains
the two derived keys. -/
theorem get_status_frame_witness :
    ∃ kvs' : List (String × Json),
      processStatusResponse (.obj [("ok", .bool true),
        ("data", .obj [("status", .str "PROCESSED"),
          ("files", .arr [.obj [("path", .str "out/1.png")]])])]) =
        .ok (.obj kvs') ∧
      dictGet kvs' "image_urls" =
        some (.arr (extractImageUrls [("status", .str "PROCESSED"),
          ("files", .arr [.obj [("path", .str "out/1.png")]])])) ∧
      dictGet kvs' "task_status" =
        some ((dictGet [("status", .str "PROCESSED"),
          ("files", .arr [.obj [("path", .str "out/1.png")]])] "status").getD
            (.str "")) ∧
      ∀ k, k ≠ "image_urls" → k ≠ "task_status" →
        dictGet kvs' k = dictGet [("ok", .bool true),
          ("data", .obj [("status", .str "PROCESSED"),
            ("files", .arr [.obj [("path", .str "out/1.png")]])])] k :=
  (get_status_frame [("ok", .bool true),
      ("data", .obj [("status", .str "PROCESSED"),
        ("files", .arr [.obj [("path", .str "out/1.png")]])])]
    [("status", .str "PROCESSED"),
      ("files", .arr [.obj [("path", .str "out/1.png")]])] rfl).1

end Upscayl
